import Mathlib

/-!
Shallow embedding of `src/importer.py` (cash-book importer).

Conventions of the embedding:
* Python strings are Lean `String`s; both index by Unicode code points.  The
  string operations of the source (slicing, `split`, `replace`, `strip`,
  `join`, `int(...)`) are embedded as executable functions over `String.data`
  (the list of characters), so that every definition evaluates by kernel
  reduction.  Every `split`/`replace` in the source uses a one-character
  separator, so the embedded operations take a `Char`.
* The regular expressions of the source are over ASCII digits in all inputs
  of interest; `\d{n}` is embedded as "length n and every char is a digit".
* `os.sep` is taken to be "/", and relative paths below the log root are
  represented as lists of path segments (a segment never contains the
  separator).
* Python exceptions are an explicit `PyError`; a function that can raise
  returns `Except PyError _`.  `None` results (not-matched) stay `Option`.
* The filesystem seen by the writer is an association list from path to
  file content; `os.path.exists` is membership of the path.
-/

/-- Exceptions the embedded Python code can raise. -/
inductive PyError where
  | indexError
  | valueError
  | stopIteration
  | fileNotFound
deriving DecidableEq, Repr

/-- Split a character list at every occurrence of `sep`, keeping empty
groups: the behaviour of Python `str.split(sep)` for a one-character `sep`
(`"".split(sep) == [""]`, separators at the ends produce empty strings). -/
def splitChars (sep : Char) : List Char → List (List Char)
  | [] => [[]]
  | c :: cs =>
    match splitChars sep cs with
    | [] => [[]]
    | g :: gs => if c == sep then [] :: g :: gs else (c :: g) :: gs

/-- Python `s.split(sep)` for a one-character separator. -/
def pySplit (sep : Char) (s : String) : List String :=
  (splitChars sep s.data).map List.asString

/-- Python `s.replace(old, new)` for one-character `old` and `new`. -/
def pyReplace (old new : Char) (s : String) : String :=
  (s.data.map fun c => if c == old then new else c).asString

/-- Python slice `s[0:n]` for `n ≥ 0`. -/
def pyTake (n : Nat) (s : String) : String :=
  (s.data.take n).asString

/-- Python slice `s[n:]` for `n ≥ 0`. -/
def pyDrop (n : Nat) (s : String) : String :=
  (s.data.drop n).asString

/-- Python slice `s[0:-n]` for `n > 0` (drop the last `n` characters). -/
def pyDropRight (n : Nat) (s : String) : String :=
  (s.data.take (s.data.length - n)).asString

/-- Length of a Python string in code points. -/
def pyLen (s : String) : Nat :=
  s.data.length

/-- Whether `suffix` is a suffix of `s` (used to embed anchored regex tails). -/
def pyEndsWith (s suffix : String) : Bool :=
  s.data.reverse.take suffix.data.length == suffix.data.reverse

/-- Python `s.strip()`: remove leading and trailing whitespace.  (Python also
strips a few more Unicode space characters; the marker files of interest
contain only ASCII whitespace.) -/
def pyStrip (s : String) : String :=
  (((s.data.dropWhile Char.isWhitespace).reverse.dropWhile Char.isWhitespace).reverse).asString

/-- Python `sep.join(parts)` for a one-character separator. -/
def pyJoin (sep : Char) (parts : List String) : String :=
  (List.intercalate [sep] (parts.map String.data)).asString

/-- Decimal value of a list of ASCII digits. -/
def digitsVal (l : List Char) : Nat :=
  l.foldl (fun acc c => acc * 10 + (c.toNat - 48)) 0

/-- Python `int(s)` restricted to the strings this program feeds it (digits
possibly left empty after stripping separators): the value of a non-empty
all-digit string, `ValueError` otherwise — in particular on the empty
string. -/
def pyInt (s : String) : Except PyError Nat :=
  if s.data ≠ [] ∧ s.data.all Char.isDigit then
    Except.ok (digitsVal s.data)
  else
    Except.error PyError.valueError

/-- Decimal value of an all-digit string, used where the source has already
pattern-checked the string so that Python `int` cannot fail. -/
def natOf (s : String) : Nat :=
  digitsVal s.data

/-- Embedding of the regex fragment `\d{n}` (exactly n ASCII digits). -/
def isDigitsLen (n : Nat) (s : String) : Bool :=
  pyLen s == n && s.data.all Char.isDigit

/-- One row of a daily CSV log (`LogRecord` in the source): the four fixed
positional fields. -/
structure LogRecord where
  timestamp : String
  package : String
  title : String
  text : String
deriving DecidableEq, Repr

/-- A parsed ledger entry (`CashBookEntry` in the source). -/
structure CashBookEntry where
  path : String
  timestamp : String
  package : String
  title : String
  category : String
  description : String
  amount : Int
  account : String
  balance : Int
deriving DecidableEq, Repr

/-- The watermark (`Marker` in the source): last imported (year, month, day). -/
structure Marker where
  year : Nat
  month : Nat
  day : Nat
deriving DecidableEq, Repr

/-- Embedding of `Marker.expr = ^(\d{4})-(\d{2})-(\d{2})$` together with the
`int(m.group(i))` decoding: `some (y, m, d)` exactly when the string matches. -/
def markerMatch (s : String) : Option (Nat × Nat × Nat) :=
  match pySplit '-' s with
  | [a, b, c] =>
    if isDigitsLen 4 a && isDigitsLen 2 b && isDigitsLen 2 c then
      some (natOf a, natOf b, natOf c)
    else
      none
  | _ => none

/-- Embedding of `Marker.__init__`: the argument is the contents of
`<cashbook_root>/marker.md` when that file exists, `none` when it is absent.
The fields start at zero and are overwritten only on a full regex match of the
stripped contents. -/
def Marker.load (contents : Option String) : Marker :=
  match contents with
  | none => ⟨0, 0, 0⟩
  | some s =>
    match markerMatch (pyStrip s) with
    | some (y, m, d) => ⟨y, m, d⟩
    | none => ⟨0, 0, 0⟩

namespace NotimonLogScan

/-- Embedding of `_dir_expr = ^\d{4}(?:/\d{2})?$` applied to the relative path
of a directory entry, the path given as its list of segments. -/
def matchDirExpr : List String → Bool
  | [a] => isDigitsLen 4 a
  | [a, b] => isDigitsLen 4 a && isDigitsLen 2 b
  | _ => false

/-- Embedding of the filename part `\d{4}-\d{2}-\d{2}\.csv` of `_file_expr`. -/
def matchFileName (nm : String) : Bool :=
  match pySplit '-' nm with
  | [a, b, c] =>
    isDigitsLen 4 a && isDigitsLen 2 b &&
      (pyLen c == 6 && isDigitsLen 2 (pyTake 2 c) && pyDrop 2 c == ".csv")
  | _ => false

/-- Embedding of `_file_expr = ^\d{4}/\d{2}/\d{4}-\d{2}-\d{2}\.csv$` applied to
the relative path of a file entry, given as its list of segments. -/
def matchFileExpr : List String → Bool
  | [a, b, c] => isDigitsLen 4 a && isDigitsLen 2 b && matchFileName c
  | _ => false

/-- Embedding of `list(map(int, entry.name.split('.')[0].split('-')))` and the
reads `parts[0], parts[1], parts[2]`; the `_file_expr` guard guarantees exactly
three components, the catch-all is unreachable under that guard. -/
def dateOfName (nm : String) : Nat × Nat × Nat :=
  match (pySplit '-' ((pySplit '.' nm).headD "")).map natOf with
  | y :: m :: d :: _ => (y, m, d)
  | _ => (0, 0, 0)

/-- Embedding of `NotimonLogScan._is_year_month_dir`: `segs` is the relative
path of the directory entry below the log root, `depth` the recursion depth of
`_deep_scan` (children of the root have depth 1). -/
def is_year_month_dir (mk : Marker) (segs : List String) (depth : Nat) : Bool :=
  if depth > 2 then
    false
  else if !matchDirExpr segs then
    false
  else
    match segs.map natOf with
    | [y] => y ≥ mk.year
    | [y, m] => y > mk.year || (y == mk.year && m ≥ mk.month)
    | _ => false

/-- Embedding of `NotimonLogScan._is_targeted_file`: `segs` is the relative
path of the file entry below the log root; its last segment is `entry.name`. -/
def is_targeted_file (mk : Marker) (segs : List String) : Bool :=
  if !matchFileExpr segs then
    false
  else
    let p := dateOfName (segs.getLastD "")
    p.1 > mk.year || (p.1 == mk.year && p.2.1 > mk.month) ||
      (p.1 == mk.year && p.2.1 == mk.month && p.2.2 ≥ mk.day)

end NotimonLogScan

/-- Lexicographic order on (year, month, day) triples, written from the wording
of the spec ("D ≥ W under (year, month, day) lexicographic comparison"); to be
compared with the selection rule of `NotimonLogScan.is_targeted_file`. -/
def dateLexGe (a b : Nat × Nat × Nat) : Prop :=
  b.1 < a.1 ∨ (a.1 = b.1 ∧ (b.2.1 < a.2.1 ∨ (a.2.1 = b.2.1 ∧ b.2.2 ≤ a.2.2)))

instance (a b : Nat × Nat × Nat) : Decidable (dateLexGe a b) := by
  unfold dateLexGe; infer_instance

/-- Python `list[i]`: the element, or an `IndexError`. -/
def pyIndex (l : List String) (i : Nat) : Except PyError String :=
  match l.get? i with
  | some s => Except.ok s
  | none => Except.error PyError.indexError

/-- `os.path.join(a, b, c)` for the shapes produced here (relative middle and
last components, separator "/"). -/
def pathJoin (a b c : String) : String :=
  a ++ "/" ++ b ++ "/" ++ c

/-- Python `s.replace(old, '')`: remove every occurrence of a character. -/
def pyRemoveChar (old : Char) (s : String) : String :=
  (s.data.filter fun c => !(c == old)).asString

namespace WooriParser

/-- Embedding of `date_expr = ^\d{2}/\d{2}$`. -/
def matchDateMD (s : String) : Bool :=
  match pySplit '/' s with
  | [a, b] => isDigitsLen 2 a && isDigitsLen 2 b
  | _ => false

/-- Embedding of `time_expr = ^\d{2}:\d{2}:\d{2}$`. -/
def matchTime (s : String) : Bool :=
  match pySplit ':' s with
  | [a, b, c] => isDigitsLen 2 a && isDigitsLen 2 b && isDigitsLen 2 c
  | _ => false

/-- Embedding of `value_expr = ^[\d,]+원$`. -/
def matchValue (s : String) : Bool :=
  pyEndsWith s "원" &&
    (let stem := pyDropRight 1 s
     !(stem == "") && stem.data.all fun c => c.isDigit || c == ',')

/-- Embedding of `account_expr = ^[\d\-]+\*{3}계좌$` (the character class of
the stem excludes the asterisk, so the split after the stem is unique). -/
def matchAccount (s : String) : Bool :=
  pyEndsWith s "***계좌" &&
    (let stem := pyDropRight 5 s
     !(stem == "") && stem.data.all fun c => c.isDigit || c == '-')

/-- Embedding of `WooriParser.parse`.  `Except.ok none` is the not-matched
result; exceptions escape as `Except.error`.  The nested matches mirror the
source line by line: the dispatch guard, the (short-circuited) length/marker
guard, the factor, the reversal, the six suffix checks, then the field
assignments in source order (the amount conversion runs before the balance
conversion). -/
def parse (cash_book_path : String) (record : LogRecord) : Except PyError (Option CashBookEntry) :=
  if !(record.package == "com.wooribank.smart.npib") || !(record.title == "우리WON뱅킹 입출금알림") then
    Except.ok none
  else
    let parts := pySplit ' ' record.text
    match (if parts.length < 8 then
             -- not ('[입금]' == parts[0] or '[출금]' == parts[1]); parts[0] is
             -- always present (split never returns an empty list), parts[1]
             -- can raise IndexError.
             if parts.headD "" == "[입금]" then Except.ok false
             else
               match parts.get? 1 with
               | none => Except.error PyError.indexError
               | some p1 => Except.ok (!(p1 == "[출금]"))
           else
             Except.ok false : Except PyError Bool) with
    | Except.error e => Except.error e
    | Except.ok true => Except.ok none
    | Except.ok false =>
      let factor : Int := if parts.headD "" == "[입금]" then 1 else -1
      let rparts := parts.reverse
      match rparts.get? 0 with
      | none => Except.error PyError.indexError
      | some t0 =>
      if !matchTime t0 then Except.ok none else
      match rparts.get? 1 with
      | none => Except.error PyError.indexError
      | some t1 =>
      if !matchDateMD t1 then Except.ok none else
      match rparts.get? 2 with
      | none => Except.error PyError.indexError
      | some t2 =>
      if !matchValue t2 then Except.ok none else
      match rparts.get? 3 with
      | none => Except.error PyError.indexError
      | some t3 =>
      if !(t3 == "잔액") then Except.ok none else
      match rparts.get? 4 with
      | none => Except.error PyError.indexError
      | some t4 =>
      if !matchAccount t4 then Except.ok none else
      match rparts.get? 5 with
      | none => Except.error PyError.indexError
      | some t5 =>
      if !matchValue t5 then Except.ok none else
      -- entry.path: record.timestamp[0:7].replace('-', sep) between the root
      -- and record.timestamp.replace(':', '-') + '.md'
      let path := pathJoin cash_book_path (pyReplace '-' '/' (pyTake 7 record.timestamp))
        (pyReplace ':' '-' record.timestamp ++ ".md")
      -- entry.timestamp: f'{record.timestamp[0:4]}-{parts[1]./ to -}T{parts[0]}'
      let ts := pyTake 4 record.timestamp ++ "-" ++ pyReplace '/' '-' t1 ++ "T" ++ t0
      -- entry.title: ' '.join(parts[-2:5:-1]) on the reversed list
      let title := pyJoin ' ' (((rparts.drop 6).take (rparts.length - 7)).reverse)
      match pyInt (pyRemoveChar ',' (pyDropRight 1 t5)) with
      | Except.error e => Except.error e
      | Except.ok amountMag =>
      match pyInt (pyRemoveChar ',' (pyDropRight 1 t2)) with
      | Except.error e => Except.error e
      | Except.ok balanceVal =>
      Except.ok (some
        { path := path
          timestamp := ts
          package := record.package
          title := title
          category := ""
          description := ""
          amount := (amountMag : Int) * factor
          account := pyDropRight 2 t4
          balance := (balanceVal : Int) })

end WooriParser

deriving instance DecidableEq for Except

namespace NotimonLogRead

/-- `entry.name.split('.')[0]`: the date key of a scanned file. -/
def fileKey (name : String) : String :=
  (pySplit '.' name).headD ""

/-- Embedding of `NotimonLogRead.read`.  A scanned file is given as its name
together with `some rows` — each CSV row already split into its four fixed
positional fields, the first physical row being the header — or `none` when
the file vanished between scan and read (the `exists` check then raises).
`next(reader)` discards the header unconditionally and raises StopIteration
on a file with no rows at all.  The marker held by the class is carried but,
as in the source, never consulted by `read`. -/
def read (mk : Marker) :
    List (String × Option (List LogRecord)) → Except PyError (List (String × List LogRecord))
  | [] => Except.ok []
  | (_, none) :: _ => Except.error PyError.fileNotFound
  | (name, some rows) :: rest =>
    match rows with
    | [] => Except.error PyError.stopIteration
    | _ :: body =>
      match read mk rest with
      | Except.error e => Except.error e
      | Except.ok out => Except.ok ((fileKey name, body) :: out)

end NotimonLogRead

namespace Importer

/-- The filesystem below the cashbook root: existing files as a path → content
association list.  Directories are implicit (`makedirs` only affects them). -/
abbrev FS := List (String × String)

/-- `os.path.exists(path)` on the modelled filesystem. -/
def fsExists (fs : FS) (path : String) : Bool :=
  fs.any fun pc => pc.1 == path

/-- The markdown document `Importer._create_markdown` writes for an entry. -/
def markdownContent (entry : CashBookEntry) : String :=
  "---\n" ++
  "일시: " ++ entry.timestamp ++ "\n" ++
  "패키지: " ++ entry.package ++ "\n" ++
  "항목: " ++ entry.title ++ "\n" ++
  "입출금분류: " ++ entry.category ++ "\n" ++
  "설명: " ++ entry.description ++ "\n" ++
  "금액: " ++ toString entry.amount ++ "\n" ++
  "계좌: " ++ entry.account ++ "\n" ++
  "잔액(알림): " ++ toString entry.balance ++ "\n" ++
  "---\n"

/-- The guarded write of `Importer.import_to_cashbook`: `_create_markdown`
runs only when no file exists at the destination path; an existing file is
left untouched. -/
def writeIfNew (fs : FS) (entry : CashBookEntry) : FS :=
  if fsExists fs entry.path then fs else (entry.path, markdownContent entry) :: fs

/-- One iteration of the loop in `Importer.import_to_cashbook`: dispatch on
the package (only the Woori package has a parser), drop a `None` parse, hand
a parsed entry to the guarded writer.  A parser exception aborts the run. -/
def import_step (cash_book_path : String) (fs : FS) (r : LogRecord) : Except PyError FS :=
  match (if r.package == "com.wooribank.smart.npib"
         then WooriParser.parse cash_book_path r
         else Except.ok none) with
  | Except.error e => Except.error e
  | Except.ok none => Except.ok fs
  | Except.ok (some entry) => Except.ok (writeIfNew fs entry)

/-- Embedding of `Importer.import_to_cashbook` over a list of records (the
source builds each `LogRecord` from a CSV row dict with these four fields). -/
def import_to_cashbook (cash_book_path : String) (fs : FS) :
    List LogRecord → Except PyError FS
  | [] => Except.ok fs
  | r :: rs =>
    match import_step cash_book_path fs r with
    | Except.error e => Except.error e
    | Except.ok fs2 => import_to_cashbook cash_book_path fs2 rs

end Importer

/-- The destination path as a function of the cashbook root and of the value
of the record's timestamp column alone; written for the amended form of the
path-determinism claim, to be compared with the path `WooriParser.parse`
stores in the entry. -/
def destinationOf (cash_book_path timestamp : String) : String :=
  pathJoin cash_book_path (pyReplace '-' '/' (pyTake 7 timestamp))
    (pyReplace ':' '-' timestamp ++ ".md")

/-- C1: for every watermark W and every file whose relative path has the
year/month/name shape of `_file_expr` with the filename decoding to date D,
`_is_targeted_file` selects the file if and only if D ≥ W under
(year, month, day) lexicographic comparison; in particular a file whose date
equals the watermark day exactly is selected. -/
theorem targeted_file_iff_date_ge (mk : Marker) (ys ms nm : String) (y mo d : Nat)
    (hys : isDigitsLen 4 ys = true) (hms : isDigitsLen 2 ms = true)
    (hnm : NotimonLogScan.matchFileName nm = true)
    (hd : NotimonLogScan.dateOfName nm = (y, mo, d)) :
    (NotimonLogScan.is_targeted_file mk [ys, ms, nm] = true ↔
      dateLexGe (y, mo, d) (mk.year, mk.month, mk.day)) ∧
    ((y, mo, d) = (mk.year, mk.month, mk.day) →
      NotimonLogScan.is_targeted_file mk [ys, ms, nm] = true) := by
  have hsel : NotimonLogScan.is_targeted_file mk [ys, ms, nm] = true ↔
      dateLexGe (y, mo, d) (mk.year, mk.month, mk.day) := by
    simp [NotimonLogScan.is_targeted_file, NotimonLogScan.matchFileExpr, hys, hms, hnm,
      List.getLastD, hd, dateLexGe]
    omega
  refine ⟨hsel, fun he => hsel.mpr ?_⟩
  rw [Prod.ext_iff, Prod.ext_iff] at he
  unfold dateLexGe
  omega

/-- Witness for C1: with watermark (2024, 3, 15), the file
`2024/03/2024-03-15.csv` — the boundary day itself — is selected. -/
theorem targeted_file_iff_date_ge_witness :
    NotimonLogScan.is_targeted_file ⟨2024, 3, 15⟩ ["2024", "03", "2024-03-15.csv"] = true :=
  (targeted_file_iff_date_ge ⟨2024, 3, 15⟩ "2024" "03" "2024-03-15.csv" 2024 3 15
    (by decide) (by decide) (by decide) (by decide)).2 rfl

/-- C2: `_is_year_month_dir` descends into a 4-digit top-level year directory
exactly when year ≥ watermark.year, into a second-level month directory
exactly when year > watermark.year or (year = watermark.year and
month ≥ watermark.month), and never descends at depth greater than 2. -/
theorem year_month_dir_pruning (mk : Marker) :
    (∀ ys : String, isDigitsLen 4 ys = true →
      (NotimonLogScan.is_year_month_dir mk [ys] 1 = true ↔ mk.year ≤ natOf ys)) ∧
    (∀ ys ms : String, isDigitsLen 4 ys = true → isDigitsLen 2 ms = true →
      (NotimonLogScan.is_year_month_dir mk [ys, ms] 2 = true ↔
        (mk.year < natOf ys ∨ (natOf ys = mk.year ∧ mk.month ≤ natOf ms)))) ∧
    (∀ (segs : List String) (depth : Nat), 2 < depth →
      NotimonLogScan.is_year_month_dir mk segs depth = false) := by
  refine ⟨fun ys hys => ?_, fun ys ms hys hms => ?_, fun segs depth hdep => ?_⟩
  · simp [NotimonLogScan.is_year_month_dir, NotimonLogScan.matchDirExpr, hys]
  · simp [NotimonLogScan.is_year_month_dir, NotimonLogScan.matchDirExpr, hys, hms]
  · simp [NotimonLogScan.is_year_month_dir, hdep]

/-- Witness for C2: with watermark (2024, 3, 15), the year directory `2024`
is descended into, and a directory at depth 3 never is. -/
theorem year_month_dir_pruning_witness :
    NotimonLogScan.is_year_month_dir ⟨2024, 3, 15⟩ ["2024"] 1 = true ∧
    NotimonLogScan.is_year_month_dir ⟨2024, 3, 15⟩ ["2024", "03", "05"] 3 = false :=
  ⟨((year_month_dir_pruning ⟨2024, 3, 15⟩).1 "2024" (by decide)).mpr (by decide),
   (year_month_dir_pruning ⟨2024, 3, 15⟩).2.2 ["2024", "03", "05"] 3 (by decide)⟩

/-- C3 (code bug): on a record whose package and title match the Woori
dispatch key but whose text is a single token that is not the inbound marker,
`WooriParser.parse` raises IndexError (`parts[1]` in the malformed guard
`len(parts) < 8 and not ('[입금]' == parts[0] or '[출금]' == parts[1])`)
instead of returning not-matched, so such a malformed row aborts the run. -/
theorem parse_raises_index_error_on_spaceless_text :
    WooriParser.parse "cb"
      { timestamp := "2024-03-15 09:30:00"
        package := "com.wooribank.smart.npib"
        title := "우리WON뱅킹 입출금알림"
        text := "x" } = Except.error PyError.indexError := by decide

/-- C4 counterexample: on the spec's worked example the code yields
account "110-123-456***" (only the 2-character label "계좌" stripped, the
masking asterisks retained) and destination path
`cb/2024/03/2024-03-15 09-30-00.md` (space kept, no "T"), contradicting the
claimed account "110-123-456" and path `.../2024-03-15T09-30-00.md`. -/
theorem parse_example_mask_and_path_cex :
    WooriParser.parse "cb"
      { timestamp := "2024-03-15 09:30:00"
        package := "com.wooribank.smart.npib"
        title := "우리WON뱅킹 입출금알림"
        text := "[출금] 가게이름 10,000원 110-123-456***계좌 잔액 90,000원 03/15 09:30:00" } =
      Except.ok (some
        { path := "cb/2024/03/2024-03-15 09-30-00.md"
          timestamp := "2024-03-15T09:30:00"
          package := "com.wooribank.smart.npib"
          title := "가게이름"
          category := ""
          description := ""
          amount := -10000
          account := "110-123-456***"
          balance := 90000 }) ∧
    "110-123-456***" ≠ "110-123-456" ∧
    "cb/2024/03/2024-03-15 09-30-00.md" ≠ "cb/2024/03/2024-03-15T09-30-00.md" := by decide

/-- C4 as amended: the worked example parses to amount = -10000,
balance = 90000, timestamp = "2024-03-15T09:30:00", account =
"110-123-456***" (trailing label "계좌" stripped, mask kept), and destination
path `<root>/2024/03/2024-03-15 09-30-00.md` (the record's timestamp column
with colons replaced by dashes, the space before the time kept). -/
theorem parse_example_entry_eval :
    (WooriParser.parse "cb"
      { timestamp := "2024-03-15 09:30:00"
        package := "com.wooribank.smart.npib"
        title := "우리WON뱅킹 입출금알림"
        text := "[출금] 가게이름 10,000원 110-123-456***계좌 잔액 90,000원 03/15 09:30:00" }).map
      (Option.map fun e => (e.amount, e.balance, e.account, e.timestamp, e.path)) =
      Except.ok (some (-10000, 90000, "110-123-456***", "2024-03-15T09:30:00",
        "cb/2024/03/2024-03-15 09-30-00.md")) := by decide

/-- C5 counterexample: two records with the same alert text but different
timestamp columns parse to entries with the same `timestamp` field yet
different destination paths, and the path is not the entry timestamp with
colons replaced (the file name keeps the record timestamp's space, there is
no "T"); so the destination path is not a function of the entry's timestamp
and does not have the claimed `<YYYY-MM-DDTHH-MM-SS>.md` shape. -/
theorem destination_path_not_from_entry_timestamp_cex :
    (WooriParser.parse "cb"
      { timestamp := "2024-02-26 01:13:38"
        package := "com.wooribank.smart.npib"
        title := "우리WON뱅킹 입출금알림"
        text := "[입금] 편의점 2,400원 1002-123-456***계좌 잔액 8,525원 02/26 01:13:38" }).map
      (Option.map fun e => (e.timestamp, e.path)) =
      Except.ok (some ("2024-02-26T01:13:38", "cb/2024/02/2024-02-26 01-13-38.md")) ∧
    (WooriParser.parse "cb"
      { timestamp := "2024-02-26 09:00:00"
        package := "com.wooribank.smart.npib"
        title := "우리WON뱅킹 입출금알림"
        text := "[입금] 편의점 2,400원 1002-123-456***계좌 잔액 8,525원 02/26 01:13:38" }).map
      (Option.map fun e => (e.timestamp, e.path)) =
      Except.ok (some ("2024-02-26T01:13:38", "cb/2024/02/2024-02-26 09-00-00.md")) ∧
    "cb/2024/02/2024-02-26 01-13-38.md" ≠ "cb/2024/02/2024-02-26 09-00-00.md" ∧
    "cb/2024/02/2024-02-26 01-13-38.md" ≠ "cb/2024/02/2024-02-26T01-13-38.md" := by decide

/-- C5 as amended: for every successfully parsed entry, the destination path
is a deterministic function of the cashbook root and of the record's
timestamp column alone:
`<root>/<timestamp[0:7] with "-" → "/">/<timestamp with ":" → "-">.md`. -/
theorem destination_path_from_record_timestamp (cash_book_path : String)
    (record : LogRecord) (entry : CashBookEntry)
    (h : WooriParser.parse cash_book_path record = Except.ok (some entry)) :
    entry.path = destinationOf cash_book_path record.timestamp := by
  unfold WooriParser.parse at h
  split at h
  · simp at h
  · iterate 24 (
      try dsimp only [] at h
      try (split at h <;> try simp at h))
    all_goals (subst h; rfl)

/-- Witness for C5 (amended): the parsed entry of a concrete record carries
exactly the destination derived from the record's timestamp column. -/
theorem destination_path_from_record_timestamp_witness :
    ({ path := "cb/2024/02/2024-02-26 01-13-38.md"
       timestamp := "2024-02-26T01:13:38"
       package := "com.wooribank.smart.npib"
       title := "편의점"
       category := ""
       description := ""
       amount := 2400
       account := "1002-123-456***"
       balance := 8525 } : CashBookEntry).path =
      destinationOf "cb" "2024-02-26 01:13:38" :=
  destination_path_from_record_timestamp "cb"
    { timestamp := "2024-02-26 01:13:38"
      package := "com.wooribank.smart.npib"
      title := "우리WON뱅킹 입출금알림"
      text := "[입금] 편의점 2,400원 1002-123-456***계좌 잔액 8,525원 02/26 01:13:38" }
    { path := "cb/2024/02/2024-02-26 01-13-38.md"
      timestamp := "2024-02-26T01:13:38"
      package := "com.wooribank.smart.npib"
      title := "편의점"
      category := ""
      description := ""
      amount := 2400
      account := "1002-123-456***"
      balance := 8525 } (by decide)

/-- One step of the import never removes a file: any path existing before
`import_step` still exists afterwards. -/
theorem import_step_mono (cb : String) (fs fs2 : Importer.FS) (r : LogRecord)
    (h : Importer.import_step cb fs r = Except.ok fs2) :
    ∀ p, Importer.fsExists fs p = true → Importer.fsExists fs2 p = true := by
  unfold Importer.import_step at h
  split at h
  · simp at h
  · simp at h; subst h; exact fun p hp => hp
  · simp at h; subst h
    intro p hp
    unfold Importer.writeIfNew
    split
    · exact hp
    · simp [Importer.fsExists] at hp ⊢
      exact Or.inr hp

/-- After the guarded write, the entry's destination path exists. -/
theorem write_if_new_exists_after (fs fs2 : Importer.FS) (entry : CashBookEntry)
    (h : Importer.writeIfNew fs entry = fs2) :
    Importer.fsExists fs2 entry.path = true := by
  subst h
  unfold Importer.writeIfNew
  split
  · assumption
  · simp [Importer.fsExists]

/-- Re-running one import step on any filesystem that already contains
everything the step produced is a no-op. -/
theorem import_step_again (cb : String) (fs fs2 : Importer.FS) (r : LogRecord)
    (h : Importer.import_step cb fs r = Except.ok fs2) :
    ∀ fs3 : Importer.FS,
      (∀ p, Importer.fsExists fs2 p = true → Importer.fsExists fs3 p = true) →
      Importer.import_step cb fs3 r = Except.ok fs3 := by
  intro fs3 hsub
  unfold Importer.import_step at h ⊢
  cases hp : (if r.package == "com.wooribank.smart.npib"
              then WooriParser.parse cb r else Except.ok none) with
  | error e => rw [hp] at h; simp at h
  | ok oe =>
    rw [hp] at h
    cases oe with
    | none => rfl
    | some entry =>
      simp at h
      have hex : Importer.fsExists fs3 entry.path = true :=
        hsub entry.path (write_if_new_exists_after fs fs2 entry h)
      simp [Importer.writeIfNew, hex]

/-- A completed run only adds files, and re-running it on any filesystem
containing its output changes nothing. -/
theorem import_again_aux (cb : String) (rs : List LogRecord) :
    ∀ fs fs1 : Importer.FS, Importer.import_to_cashbook cb fs rs = Except.ok fs1 →
      (∀ p, Importer.fsExists fs p = true → Importer.fsExists fs1 p = true) ∧
      (∀ fs2 : Importer.FS,
        (∀ p, Importer.fsExists fs1 p = true → Importer.fsExists fs2 p = true) →
        Importer.import_to_cashbook cb fs2 rs = Except.ok fs2) := by
  induction rs with
  | nil =>
    intro fs fs1 h
    simp [Importer.import_to_cashbook] at h
    subst h
    exact ⟨fun p hp => hp, fun fs2 _ => rfl⟩
  | cons r rs ih =>
    intro fs fs1 h
    unfold Importer.import_to_cashbook at h
    cases hstep : Importer.import_step cb fs r with
    | error e => rw [hstep] at h; simp at h
    | ok fsm =>
      rw [hstep] at h
      obtain ⟨hmono, hagain⟩ := ih fsm fs1 h
      refine ⟨fun p hp => hmono p (import_step_mono cb fs fsm r hstep p hp), ?_⟩
      intro fs2 hsub
      unfold Importer.import_to_cashbook
      rw [import_step_again cb fs fsm r hstep fs2 (fun p hp => hsub p (hmono p hp))]
      exact hagain fs2 hsub

/-- C6: the import is idempotent.  If a run over a record list succeeds with
resulting filesystem fs1, running the same records again over fs1 succeeds
and returns fs1 unchanged — no new files, no modified contents; and the
writer is a no-op on any entry whose destination path already exists. -/
theorem import_idempotent (cb : String) (fs fs1 : Importer.FS) (rs : List LogRecord)
    (h : Importer.import_to_cashbook cb fs rs = Except.ok fs1) :
    Importer.import_to_cashbook cb fs1 rs = Except.ok fs1 ∧
    (∀ (fsx : Importer.FS) (entry : CashBookEntry),
      Importer.fsExists fsx entry.path = true → Importer.writeIfNew fsx entry = fsx) :=
  ⟨(import_again_aux cb rs fs fs1 h).2 fs1 (fun _ hp => hp),
   fun fsx entry hex => by simp [Importer.writeIfNew, hex]⟩

/-- Witness for C6: importing the worked-example record over the filesystem
already containing its output file leaves that filesystem exactly as is. -/
theorem import_idempotent_witness :
    Importer.import_to_cashbook "cb"
      [("cb/2024/03/2024-03-15 09-30-00.md",
        "---\n일시: 2024-03-15T09:30:00\n패키지: com.wooribank.smart.npib\n항목: 가게이름\n입출금분류: \n설명: \n금액: -10000\n계좌: 110-123-456***\n잔액(알림): 90000\n---\n")]
      [{ timestamp := "2024-03-15 09:30:00"
         package := "com.wooribank.smart.npib"
         title := "우리WON뱅킹 입출금알림"
         text := "[출금] 가게이름 10,000원 110-123-456***계좌 잔액 90,000원 03/15 09:30:00" }] =
      Except.ok
      [("cb/2024/03/2024-03-15 09-30-00.md",
        "---\n일시: 2024-03-15T09:30:00\n패키지: com.wooribank.smart.npib\n항목: 가게이름\n입출금분류: \n설명: \n금액: -10000\n계좌: 110-123-456***\n잔액(알림): 90000\n---\n")] :=
  (import_idempotent "cb" []
    [("cb/2024/03/2024-03-15 09-30-00.md",
      "---\n일시: 2024-03-15T09:30:00\n패키지: com.wooribank.smart.npib\n항목: 가게이름\n입출금분류: \n설명: \n금액: -10000\n계좌: 110-123-456***\n잔액(알림): 90000\n---\n")]
    [{ timestamp := "2024-03-15 09:30:00"
       package := "com.wooribank.smart.npib"
       title := "우리WON뱅킹 입출금알림"
       text := "[출금] 가게이름 10,000원 110-123-456***계좌 잔액 90,000원 03/15 09:30:00" }]
    (by decide)).1

/-- C7 (code bug): a record with matching package and title whose first text
token is neither "[입금]" nor "[출금]" is nevertheless parsed (with factor
-1) whenever the text has at least 8 tokens and a well-formed suffix, because
the guard `len(parts) < 8 and not (...)` skips the direction-marker check for
texts of 8 or more tokens; the claim says such a record must be
not-matched. -/
theorem parse_accepts_text_without_direction_marker :
    WooriParser.parse "cb"
      { timestamp := "2024-02-26 01:13:38"
        package := "com.wooribank.smart.npib"
        title := "우리WON뱅킹 입출금알림"
        text := "첫토큰 편의점 2,400원 110-123-456***계좌 잔액 8,525원 02/26 01:13:38" } =
      Except.ok (some
        { path := "cb/2024/02/2024-02-26 01-13-38.md"
          timestamp := "2024-02-26T01:13:38"
          package := "com.wooribank.smart.npib"
          title := "편의점"
          category := ""
          description := ""
          amount := -2400
          account := "110-123-456***"
          balance := 8525 }) ∧
    "첫토큰" ≠ "[입금]" ∧ "첫토큰" ≠ "[출금]" := by decide

/-- C8 counterexample: with watermark (2024, 3, 15), `NotimonLogRead.read`
returns a row whose date (2020, 1, 1) precedes the watermark day — the
reader applies no row-level watermark filter at all. -/
theorem read_retains_pre_watermark_row_cex :
    NotimonLogRead.read ⟨2024, 3, 15⟩
      [("2024-03-15.csv", some
        [{ timestamp := "Timestamp", package := "Package", title := "Title", text := "Text" },
         { timestamp := "2020-01-01 00:00:00", package := "p", title := "t", text := "x" }])] =
      Except.ok [("2024-03-15",
        [{ timestamp := "2020-01-01 00:00:00", package := "p", title := "t", text := "x" }])] ∧
    ¬ dateLexGe (2020, 1, 1) (2024, 3, 15) := by decide

/-- C8 as amended: `NotimonLogRead.read` performs no row-level filtering:
for a present, non-empty file it returns every row after the discarded
header, unchanged and regardless of any date, for any watermark. -/
theorem read_returns_all_body_rows (mk : Marker) (name : String) (hdr : LogRecord)
    (body : List LogRecord) (rest : List (String × Option (List LogRecord)))
    (out : List (String × List LogRecord))
    (h : NotimonLogRead.read mk rest = Except.ok out) :
    NotimonLogRead.read mk ((name, some (hdr :: body)) :: rest) =
      Except.ok ((NotimonLogRead.fileKey name, body) :: out) := by
  simp [NotimonLogRead.read, h]

/-- Witness for C8 (amended): one file, one header, one body row — the body
row is returned as is. -/
theorem read_returns_all_body_rows_witness :
    NotimonLogRead.read ⟨2024, 3, 15⟩
      [("2024-03-15.csv", some
        [{ timestamp := "Timestamp", package := "Package", title := "Title", text := "Text" },
         { timestamp := "2024-03-15 09:30:00", package := "p", title := "t", text := "x" }])] =
      Except.ok [("2024-03-15",
        [{ timestamp := "2024-03-15 09:30:00", package := "p", title := "t", text := "x" }])] :=
  read_returns_all_body_rows ⟨2024, 3, 15⟩ "2024-03-15.csv"
    { timestamp := "Timestamp", package := "Package", title := "Title", text := "Text" }
    [{ timestamp := "2024-03-15 09:30:00", package := "p", title := "t", text := "x" }]
    [] [] rfl

/-- C9: loading the marker yields (0, 0, 0) when the file is absent or its
stripped contents do not match `YYYY-MM-DD`, and exactly the parsed
(year, month, day) when they do; a malformed marker is never an error. -/
theorem marker_load_spec (contents : Option String) :
    (contents = none → Marker.load contents = ⟨0, 0, 0⟩) ∧
    (∀ s, contents = some s → markerMatch (pyStrip s) = none →
      Marker.load contents = ⟨0, 0, 0⟩) ∧
    (∀ s y m d, contents = some s → markerMatch (pyStrip s) = some (y, m, d) →
      Marker.load contents = ⟨y, m, d⟩) := by
  refine ⟨fun h => by subst h; rfl, fun s hs hm => ?_, fun s y m d hs hm => ?_⟩
  · subst hs; simp [Marker.load, hm]
  · subst hs; simp [Marker.load, hm]

/-- Witness for C9: a well-formed marker file surrounded by whitespace is
parsed to its (year, month, day). -/
theorem marker_load_spec_witness :
    Marker.load (some " 2024-03-15\n") = ⟨2024, 3, 15⟩ :=
  (marker_load_spec (some " 2024-03-15\n")).2.2 " 2024-03-15\n" 2024 3 15 rfl (by decide)

/-- C10: a candidate CSV file that exists but has no rows at all makes the
unconditional header discard (`next(reader)`) raise StopIteration, aborting
the whole read instead of yielding a file with zero records. -/
theorem read_empty_file_stop_iteration :
    NotimonLogRead.read ⟨2024, 3, 15⟩ [("2024-01-01.csv", some [])] =
      Except.error PyError.stopIteration := by decide
